import Mathlib

/-
Shallow embedding of the autonomous hiring agent (config.py, gmail_func.py,
llm_func.py, main.py) and verification of its specification.

External collaborators (Gmail API, the Groq LLM, gspread, the file system and
the clock) are modelled as explicit oracle arguments; everything the repository
itself computes is translated function by function from the source.
-/

/-- Characters treated as whitespace by the Python str.split method for ASCII input. -/
def pyIsSpace (c : Char) : Bool :=
  c == ' ' || c == '\t' || c == '\n' || c == '\r' || c == '\x0b' || c == '\x0c'

/-- Python str.split() over a character list: splits on runs of whitespace and
drops empty fields.  The accumulator holds the current word reversed. -/
def wordsAux : List Char → List Char → List (List Char)
  | [], acc => if acc.isEmpty then [] else [acc.reverse]
  | c :: cs, acc =>
    if pyIsSpace c then
      if acc.isEmpty then wordsAux cs [] else acc.reverse :: wordsAux cs []
    else wordsAux cs (c :: acc)

/-- Python " ".join over a list of words given as character lists. -/
def joinWords : List (List Char) → List Char
  | [] => []
  | w :: ws =>
    match ws with
    | [] => w
    | _ :: _ => w ++ ' ' :: joinWords ws

/-- Python expression " ".join(s.split()): collapse every run of whitespace to
a single space and strip leading/trailing whitespace
(gmail_func.py line 258). -/
def normalizeWs (s : String) : String :=
  String.mk (joinWords (wordsAux s.data []))

/-- Python s.startswith(p). -/
def pyStartsWith (s p : String) : Bool :=
  p.data.isPrefixOf s.data

/-- Python slice s[:n] (by code point, matching Python string indexing). -/
def pySlice (s : String) (n : Nat) : String :=
  String.mk (s.data.take n)

/-- Confidence levels of ResumeValidation (llm_func.py line 61,
Literal of high, medium, low). -/
inductive Confidence where
  | high
  | medium
  | low
deriving DecidableEq, Repr

/-- ResumeValidation pydantic model (llm_func.py lines 48-63). -/
structure ResumeValidation where
  is_resume : Bool
  confidence : Confidence
  document_type : String
  reason : String
deriving DecidableEq, Repr

/-- Status field of the Interns model (llm_func.py line 88,
Literal of New, Old). -/
inductive StatusTag where
  | New
  | Old
deriving DecidableEq, Repr

/-- String serialization of the status literal as it appears in a sheet row. -/
def statusString : StatusTag → String
  | StatusTag.New => "New"
  | StatusTag.Old => "Old"

/-- Interns pydantic model: the structured candidate record
(llm_func.py lines 66-90). -/
structure Interns where
  name : String
  email : String
  phone : String
  skills : List String
  exp : String
  status : StatusTag
  summary : String
  question : String
deriving DecidableEq, Repr

/-- One attachment reference as built by read_email
(gmail_func.py lines 137-142). -/
structure AttachmentRef where
  filename : String
  attachment_id : String
deriving DecidableEq, Repr

/-- Email data dictionary produced by read_email
(gmail_func.py lines 144-150). -/
structure EmailData where
  id : String
  sender : String
  subject : String
  body : String
  attachments : List AttachmentRef
deriving DecidableEq, Repr

/-- One Gmail search result: the code only reads its id field
(gmail_func.py line 53). -/
structure SearchHit where
  id : String
deriving DecidableEq, Repr

/-- Outcome of the PyPDF2.PdfReader side of extract_text_from_pdf: either the
list of page texts, a FileNotFoundError, or any other reading exception
(gmail_func.py lines 249-269). -/
inductive PdfResult where
  | pages (ps : List String)
  | notFound
  | readErr (e : String)
deriving DecidableEq, Repr

/-- Observable gspread effects issued by the sheet-writing functions, in
issue order: sheet creation, sharing, and row appends. -/
inductive SheetEvent where
  | create (name : String)
  | share (name : String) (identity : String) (role : String)
  | append (name : String) (row : List String)
deriving DecidableEq, Repr

/-- The gspread account state: named sheets, each a list of rows. -/
abbrev SheetDB := List (String × List (List String))

/-- client.open: find a sheet by name, None models SpreadsheetNotFound. -/
def lookupSheet : SheetDB → String → Option (List (List String))
  | [], _ => none
  | (n, rows) :: rest, name =>
    if n = name then some rows else lookupSheet rest name

/-- ws.append_row on the named sheet (appends to the first match). -/
def appendRowDB : SheetDB → String → List String → SheetDB
  | [], name, row => [(name, [row])]
  | (n, rows) :: rest, name, row =>
    if n = name then (n, rows ++ [row]) :: rest
    else (n, rows) :: appendRowDB rest name row

/-- client.create: a fresh empty sheet under the given name. -/
def createSheet (db : SheetDB) (name : String) : SheetDB :=
  db ++ [(name, [])]

/-- Header row written when save_to_sheets creates the candidates sheet
(llm_func.py line 389).  Note the lowercase final column. -/
def candidateHeaders : List String :=
  ["Name", "Email", "Phone", "Skills", "Experience", "Status", "Summary", "questions"]

/-- Data row built by save_to_sheets from the candidate dictionary, with
skills joined by a comma and a space (llm_func.py lines 350-365). -/
def candidateRow (data : Interns) : List String :=
  [data.name, data.email, data.phone, String.intercalate ", " data.skills,
   data.exp, statusString data.status, data.summary, data.question]

/-- save_to_sheets (llm_func.py lines 330-396): append the candidate row to
the named sheet; when the sheet is absent, create it, share it with the fixed
collaborator, write the header row, then the data row.  Returns the new state
and the gspread effects in issue order. -/
def save_to_sheets (db : SheetDB) (data : Interns) (file_name : String) :
    SheetDB × List SheetEvent :=
  let row := candidateRow data
  match lookupSheet db file_name with
  | some _ =>
    (appendRowDB db file_name row, [SheetEvent.append file_name row])
  | none =>
    let db1 := createSheet db file_name
    let db2 := appendRowDB db1 file_name candidateHeaders
    let db3 := appendRowDB db2 file_name row
    (db3,
     [SheetEvent.create file_name,
      SheetEvent.share file_name "mdhananjay776@gmail.com" "writer",
      SheetEvent.append file_name candidateHeaders,
      SheetEvent.append file_name row])

/-- Header row written when save_rejected_to_sheets creates the rejection
sheet (llm_func.py line 427).  Note the spaces inside the last two columns. -/
def rejectedHeaders : List String :=
  ["Timestamp", "Sender", "Document Type", "Rejection Reason"]

/-- save_rejected_to_sheets (llm_func.py lines 399-429): append the
timestamped rejection row, creating the sheet with its header on first use.
The datetime.now() timestamp is passed in as an argument. -/
def save_rejected_to_sheets (db : SheetDB) (timestamp email_sender document_type reason file_name : String) :
    SheetDB × List SheetEvent :=
  let row := [timestamp, email_sender, document_type, reason]
  match lookupSheet db file_name with
  | some _ =>
    (appendRowDB db file_name row, [SheetEvent.append file_name row])
  | none =>
    let db1 := createSheet db file_name
    let db2 := appendRowDB db1 file_name rejectedHeaders
    let db3 := appendRowDB db2 file_name row
    (db3,
     [SheetEvent.create file_name,
      SheetEvent.share file_name "mdhananjay776@gmail.com" "writer",
      SheetEvent.append file_name rejectedHeaders,
      SheetEvent.append file_name row])

/-- Events observable from one cycle of the agent_runner wrapper: an attempt
of the wrapped function, a time.sleep(10) retry delay, or the final
time.sleep(3600) (llm_func.py lines 115-140). -/
inductive AgentEvent where
  | attempt (n : Nat)
  | delay (secs : Nat)
  | sleepFor (secs : Nat)
deriving DecidableEq, Repr

/-- The retry loop of agent_runner, from attempt number a with the given
number of loop iterations remaining: on success stop, on failure sleep 10
seconds only when the attempt number is below 3, then try again
(llm_func.py lines 122-132).  outcome n says whether attempt n succeeds. -/
def attemptsFrom (outcome : Nat → Bool) (a : Nat) : Nat → List AgentEvent × Bool
  | 0 => ([], false)
  | r + 1 =>
    if outcome a then ([AgentEvent.attempt a], true)
    else if a < 3 then
      let p := attemptsFrom outcome (a + 1) r
      (AgentEvent.attempt a :: AgentEvent.delay 10 :: p.1, p.2)
    else ([AgentEvent.attempt a], false)

/-- One cycle of the agent_runner wrapper body: for attempt in range(1, 4)
with the retry delays, then the fixed 3600-second sleep regardless of the
outcome (llm_func.py lines 117-138).  Returns the event trace and whether the
cycle succeeded. -/
def runCycle (outcome : Nat → Bool) : List AgentEvent × Bool :=
  let p := attemptsFrom outcome 1 3
  (p.1 ++ [AgentEvent.sleepFor 3600], p.2)

/-- The classifier LLM chain of validate_resume, as an oracle: takes the
truncated email context and document preview, returns a ResumeValidation or
raises (llm_func.py lines 200-210). -/
abbrev Classifier := String → String → Except String ResumeValidation

/-- The extraction LLM chain of extract_llm, as an oracle: takes the email
body and the resume text, returns an Interns record or raises
(llm_func.py lines 307-314). -/
abbrev Extractor := String → String → Except String Interns

/-- validate_resume (llm_func.py lines 147-228): truncate the document to its
first 1000 characters and the email body to its first 500, invoke the
classifier chain, and on any exception return the conservative reject
(is_resume false, confidence low, document_type unknown). -/
def validate_resume (classify : Classifier) (pdf_text : String) (email_body : String) :
    ResumeValidation :=
  let preview := if pdf_text.length > 1000 then pySlice pdf_text 1000 else pdf_text
  match classify (pySlice email_body 500) preview with
  | Except.ok result => result
  | Except.error e =>
    { is_resume := false
      confidence := Confidence.low
      document_type := "unknown"
      reason := "Validation error: " ++ e }

/-- STEP 2 of extract_llm: invoke the extraction chain inside try/except,
returning none when it raises (llm_func.py lines 310-323). -/
def runExtract (ext : Extractor) (email_body pdf_text : String) : Option Interns :=
  match ext email_body pdf_text with
  | Except.ok result => some result
  | Except.error _ => none

/-- extract_llm (llm_func.py lines 235-323): unless skip_validation, run
validate_resume first and return None when the document is not a resume or
the confidence is low; otherwise run the extraction chain, returning None on
its failure. -/
def extract_llm (classify : Classifier) (ext : Extractor)
    (email_body pdf_text : String) (skip_validation : Bool) : Option Interns :=
  if skip_validation = false then
    let validation := validate_resume classify pdf_text email_body
    if validation.is_resume = false then none
    else if validation.confidence = Confidence.low then none
    else runExtract ext email_body pdf_text
  else runExtract ext email_body pdf_text

/-- search_gmail (gmail_func.py lines 29-60): invoke the Gmail search tool
and map the hits to their ids; any exception is caught and an empty list is
returned.  The tool invocation is the oracle argument. -/
def search_gmail (searchCall : Except String (List SearchHit)) : List String :=
  match searchCall with
  | Except.ok res => res.map (fun m => m.id)
  | Except.error _ => []

/-- read_email (gmail_func.py lines 95-159): fetch each message, skipping any
whose fetch raises.  The per-message Gmail fetch and parse is the oracle. -/
def read_email (fetchMsg : String → Except String EmailData) (msg_ids : List String) :
    List EmailData :=
  msg_ids.filterMap (fun mid => (fetchMsg mid).toOption)

/-- Download directory literal of save_pdf (gmail_func.py line 166). -/
def downloadDir : String := ".\\downloads"

/-- save_pdf (gmail_func.py lines 166-227): take the first email of the list
and its first attachment, fetch the attachment bytes (the oracle), write them
under the attachment filename, and return the saved path together with that
body of that email; raise when the list or the attachment list is empty or the
fetch fails.  os.path.join is modelled with a fixed separator. -/
def save_pdf (fetchAtt : String → String → Except String String)
    (contents : List EmailData) : Except String (String × String) :=
  match contents with
  | [] => Except.error "No email contents to process"
  | content :: _ =>
    match content.attachments with
    | [] => Except.error "No attachments in email"
    | att :: _ =>
      match fetchAtt content.id att.attachment_id with
      | Except.error e => Except.error ("Failed to download attachment: " ++ e)
      | Except.ok _ => Except.ok (downloadDir ++ "/" ++ att.filename, content.body)

/-- extract_text_from_pdf (gmail_func.py lines 230-269): read all pages,
concatenate each page text followed by a newline, and collapse whitespace; a
FileNotFoundError or any other exception is caught and returned as a tagged
error string.  The PyPDF2 reader is the oracle. -/
def extract_text_from_pdf (pdfRead : String → PdfResult) (pdf_path : String) : String :=
  match pdfRead pdf_path with
  | PdfResult.pages ps =>
    let full_txt := ps.foldl (fun acc page => acc ++ page ++ "\n") ""
    normalizeWs full_txt
  | PdfResult.notFound => "Error: PDF file not found at " ++ pdf_path
  | PdfResult.readErr e => "Error reading PDF: " ++ e

/-- All external collaborators of one pipeline pass bundled together: the
Gmail search call, the per-message fetch, the attachment byte fetch, the
PyPDF2 reader, the two LLM chains, whether a gspread call raises for a given
message id and sheet name, and the datetime.now() timestamp string. -/
structure Oracles where
  searchCall : Except String (List SearchHit)
  fetchMsg : String → Except String EmailData
  fetchAtt : String → String → Except String String
  pdfRead : String → PdfResult
  classify : Classifier
  extract : Extractor
  sheetFails : String → String → Bool
  now : String

/-- Result of processing one message of the batch: the sheet state after the
message, the gspread effects it issued, and the exception (if any) that
reached the per-message except block of the loop in main. -/
structure StepResult where
  db : SheetDB
  events : List SheetEvent
  raised : Option String
deriving Repr

/-- Result of one batch (or one whole pass): final sheet state, all gspread
effects in order, and the per-message outcome of each processed message. -/
structure BatchResult where
  db : SheetDB
  events : List SheetEvent
  outcomes : List (Option String)
deriving Repr

/-- Fixed message id of the exception a failing gspread call contributes to
the per-message outcome. -/
def sheetRaiseMsg : String := "SheetWriteError"

/-- Sheet name used by main for accepted candidates (main.py line 115). -/
def candidatesSheet : String := "candidates"

/-- Default sheet name used by main for rejections (llm_func.py line 399). -/
def rejectedSheet : String := "rejected_applications"

/-- The loop body of main for one email (main.py lines 70-129): skip when
there is no attachment; download the PDF, catching a failure and continuing;
extract the text and skip when it starts with "Error"; run extract_llm and
either log the rejection with the fixed document type "non-resume" and the
fixed reason, or save the candidate row; a gspread exception escapes to the
per-message boundary with the state unchanged. -/
def processEmail (o : Oracles) (email : EmailData) (db : SheetDB) : StepResult :=
  if email.attachments.isEmpty then { db := db, events := [], raised := none }
  else
    match save_pdf o.fetchAtt [email] with
    | Except.error _ => { db := db, events := [], raised := none }
    | Except.ok (path, body) =>
      let pdf_txt := extract_text_from_pdf o.pdfRead path
      if pyStartsWith pdf_txt "Error" then { db := db, events := [], raised := none }
      else
        match extract_llm o.classify o.extract body pdf_txt false with
        | none =>
          if o.sheetFails email.id rejectedSheet then
            { db := db, events := [], raised := some sheetRaiseMsg }
          else
            let r := save_rejected_to_sheets db o.now email.sender "non-resume"
              "Failed resume validation check" rejectedSheet
            { db := r.1, events := r.2, raised := none }
        | some data =>
          if o.sheetFails email.id candidatesSheet then
            { db := db, events := [], raised := some sheetRaiseMsg }
          else
            let r := save_to_sheets db data candidatesSheet
            { db := r.1, events := r.2, raised := none }

/-- The for-loop of main over the batch (main.py lines 69-129): each message
is processed inside try/except, so an exception from one message is recorded
in its outcome and the loop continues with the next message from the state
the failed message left behind. -/
def runBatch (o : Oracles) : List EmailData → SheetDB → BatchResult
  | [], db => { db := db, events := [], outcomes := [] }
  | e :: rest, db =>
    let r := processEmail o e db
    let rr := runBatch o rest r.db
    { db := rr.db, events := r.events ++ rr.events, outcomes := r.raised :: rr.outcomes }

/-- The undecorated body of main (main.py lines 26-131): search, return early
when no message ids or no readable content, otherwise process the batch.
Every stage either catches internally or is caught by the per-message
boundary, so the pass itself always returns a BatchResult. -/
def mainBody (o : Oracles) (db : SheetDB) : BatchResult :=
  let msg_ids := search_gmail o.searchCall
  if msg_ids.isEmpty then { db := db, events := [], outcomes := [] }
  else
    let content := read_email o.fetchMsg msg_ids
    if content.isEmpty then { db := db, events := [], outcomes := [] }
    else runBatch o content db

/-- The sheet an event targets. -/
def eventSheet : SheetEvent → String
  | SheetEvent.create n => n
  | SheetEvent.share n _ _ => n
  | SheetEvent.append n _ => n

theorem string_data_append (s t : String) : (s ++ t).data = s.data ++ t.data := by
  cases s
  cases t
  rfl

theorem pyStartsWith_append (s t p : String) (h : pyStartsWith s p = true) :
    pyStartsWith (s ++ t) p = true := by
  unfold pyStartsWith at h ⊢
  rw [string_data_append]
  rw [List.isPrefixOf_iff_prefix] at h ⊢
  exact h.trans (List.prefix_append _ _)

theorem lookupSheet_create (db : SheetDB) (q : String) (h : lookupSheet db q = none) :
    lookupSheet (createSheet db q) q = some [] := by
  induction db with
  | nil => simp [createSheet, lookupSheet]
  | cons p rest ih =>
    obtain ⟨m, rows⟩ := p
    unfold lookupSheet at h
    unfold createSheet at ih ⊢
    by_cases hm : m = q
    · simp [hm] at h
    · simp only [List.cons_append, lookupSheet, if_neg hm] at h ⊢
      exact ih h

theorem lookupSheet_append_self (db : SheetDB) (q : String) (rows : List (List String))
    (row : List String) (h : lookupSheet db q = some rows) :
    lookupSheet (appendRowDB db q row) q = some (rows ++ [row]) := by
  induction db with
  | nil => simp [lookupSheet] at h
  | cons p rest ih =>
    obtain ⟨m, rs⟩ := p
    unfold lookupSheet at h
    unfold appendRowDB
    by_cases hm : m = q
    · simp only [if_pos hm] at h ⊢
      simp only [lookupSheet, if_pos hm]
      rw [Option.some_inj] at h
      rw [h]
    · simp only [if_neg hm] at h ⊢
      simp only [lookupSheet, if_neg hm]
      exact ih h

theorem save_to_sheets_rows_absent (db : SheetDB) (d : Interns) (q : String)
    (h : lookupSheet db q = none) :
    lookupSheet (save_to_sheets db d q).1 q = some [candidateHeaders, candidateRow d] := by
  unfold save_to_sheets
  rw [h]
  have h1 := lookupSheet_create db q h
  have h2 := lookupSheet_append_self _ q [] candidateHeaders h1
  have h3 := lookupSheet_append_self _ q [candidateHeaders] (candidateRow d) h2
  simpa using h3

theorem save_to_sheets_present (db : SheetDB) (d : Interns) (q : String)
    (rows : List (List String)) (h : lookupSheet db q = some rows) :
    lookupSheet (save_to_sheets db d q).1 q = some (rows ++ [candidateRow d]) ∧
    (save_to_sheets db d q).2 = [SheetEvent.append q (candidateRow d)] := by
  unfold save_to_sheets
  rw [h]
  exact ⟨lookupSheet_append_self db q rows (candidateRow d) h, rfl⟩

theorem save_rejected_events (db : SheetDB) (ts s dt r q : String) :
    (∀ ev ∈ (save_rejected_to_sheets db ts s dt r q).2, eventSheet ev = q) ∧
    SheetEvent.append q [ts, s, dt, r] ∈ (save_rejected_to_sheets db ts s dt r q).2 := by
  unfold save_rejected_to_sheets
  cases h : lookupSheet db q <;> simp [eventSheet]

theorem extract_llm_reject (classify : Classifier) (ext : Extractor) (eb pt : String)
    (h : (validate_resume classify pt eb).is_resume = false ∨
         (validate_resume classify pt eb).confidence = Confidence.low) :
    extract_llm classify ext eb pt false = none := by
  unfold extract_llm
  by_cases hr : (validate_resume classify pt eb).is_resume = false
  · simp [hr]
  · rcases h with h | h
    · exact absurd h hr
    · simp [hr, h]

/-- C4: for every input pair, if the classifier invocation raises, then
validate_resume does not propagate the exception and returns the conservative
reject with is_resume false and confidence low (llm_func.py lines 203-228). -/
theorem classifier_failure_safe_reject_c4 (classify : Classifier) (pt eb msg : String)
    (h : classify (pySlice eb 500)
           (if pt.length > 1000 then pySlice pt 1000 else pt) = Except.error msg) :
    validate_resume classify pt eb =
      { is_resume := false
        confidence := Confidence.low
        document_type := "unknown"
        reason := "Validation error: " ++ msg } := by
  unfold validate_resume
  simp only [h]

/-- Witness for C4 at a concrete always-failing classifier. -/
theorem classifier_failure_safe_reject_c4_witness :
    ((fun _ _ => Except.error "Groq timeout" : Classifier) (pySlice "hello" 500)
        (if String.length "John Doe resume" > 1000 then pySlice "John Doe resume" 1000
         else "John Doe resume") = Except.error "Groq timeout") ∧
    validate_resume (fun _ _ => Except.error "Groq timeout") "John Doe resume" "hello" =
      { is_resume := false
        confidence := Confidence.low
        document_type := "unknown"
        reason := "Validation error: Groq timeout" } :=
  ⟨rfl, classifier_failure_safe_reject_c4 (fun _ _ => Except.error "Groq timeout")
    "John Doe resume" "hello" "Groq timeout" rfl⟩

/-- C8: full characterization of one scheduler cycle: at most 3 attempts, a
10-second delay only between consecutive attempts and never after the last
failed attempt, the 3600-second sleep always last regardless of outcome, and
in particular fail-fail-succeed yields exactly two 10-second delays and a
successful cycle (llm_func.py lines 115-140). -/
theorem scheduler_cycle_c8 (outcome : Nat → Bool) :
    (outcome 1 = true →
      runCycle outcome = ([AgentEvent.attempt 1, AgentEvent.sleepFor 3600], true)) ∧
    (outcome 1 = false → outcome 2 = true →
      runCycle outcome =
        ([AgentEvent.attempt 1, AgentEvent.delay 10, AgentEvent.attempt 2,
          AgentEvent.sleepFor 3600], true)) ∧
    (outcome 1 = false → outcome 2 = false → outcome 3 = true →
      runCycle outcome =
        ([AgentEvent.attempt 1, AgentEvent.delay 10, AgentEvent.attempt 2,
          AgentEvent.delay 10, AgentEvent.attempt 3, AgentEvent.sleepFor 3600], true)) ∧
    (outcome 1 = false → outcome 2 = false → outcome 3 = false →
      runCycle outcome =
        ([AgentEvent.attempt 1, AgentEvent.delay 10, AgentEvent.attempt 2,
          AgentEvent.delay 10, AgentEvent.attempt 3, AgentEvent.sleepFor 3600], false)) := by
  refine ⟨fun h1 => ?_, fun h1 h2 => ?_, fun h1 h2 h3 => ?_, fun h1 h2 h3 => ?_⟩ <;>
    simp [runCycle, attemptsFrom, h1] <;>
    simp [h2] <;>
    simp [h3]

/-- Witness for C8: the fail-fail-succeed outcome function yields the
two-delay successful trace. -/
theorem scheduler_cycle_c8_witness :
    ((fun n => decide (n = 3)) 1 = false) ∧
    ((fun n => decide (n = 3)) 2 = false) ∧
    ((fun n => decide (n = 3)) 3 = true) ∧
    runCycle (fun n => decide (n = 3)) =
      ([AgentEvent.attempt 1, AgentEvent.delay 10, AgentEvent.attempt 2,
        AgentEvent.delay 10, AgentEvent.attempt 3, AgentEvent.sleepFor 3600], true) :=
  ⟨by decide, by decide, by decide,
   (scheduler_cycle_c8 (fun n => decide (n = 3))).2.2.1 (by decide) (by decide) (by decide)⟩

/-- C9: extract_text_from_pdf is total over every reader outcome: on a
readable document it returns the whitespace-normalized concatenation of the
page texts, and on a missing or unreadable file it returns a string tagged
with the Error marker instead of raising (gmail_func.py lines 230-269). -/
theorem pdf_extraction_total_c9 (pdfRead : String → PdfResult) (path : String) :
    (∃ ps, pdfRead path = PdfResult.pages ps ∧
      extract_text_from_pdf pdfRead path =
        normalizeWs (ps.foldl (fun acc page => acc ++ page ++ "\n") "")) ∨
    ((pdfRead path = PdfResult.notFound ∨ ∃ e, pdfRead path = PdfResult.readErr e) ∧
      pyStartsWith (extract_text_from_pdf pdfRead path) "Error" = true) := by
  cases h : pdfRead path with
  | pages ps =>
    exact Or.inl ⟨ps, rfl, by simp [extract_text_from_pdf, h]⟩
  | notFound =>
    refine Or.inr ⟨Or.inl rfl, ?_⟩
    simp only [extract_text_from_pdf, h]
    exact pyStartsWith_append "Error: PDF file not found at " path "Error" (by decide)
  | readErr e =>
    refine Or.inr ⟨Or.inr ⟨e, rfl⟩, ?_⟩
    simp only [extract_text_from_pdf, h]
    exact pyStartsWith_append "Error reading PDF: " e "Error" (by decide)

theorem processEmail_rejectPath (o : Oracles) (email : EmailData) (db : SheetDB)
    (path body : String)
    (hAtt : email.attachments.isEmpty = false)
    (hSave : save_pdf o.fetchAtt [email] = Except.ok (path, body))
    (hErr : pyStartsWith (extract_text_from_pdf o.pdfRead path) "Error" = false)
    (hRej : (validate_resume o.classify (extract_text_from_pdf o.pdfRead path) body).is_resume
              = false ∨
            (validate_resume o.classify (extract_text_from_pdf o.pdfRead path) body).confidence
              = Confidence.low)
    (hSheet : o.sheetFails email.id rejectedSheet = false) :
    processEmail o email db =
      { db := (save_rejected_to_sheets db o.now email.sender "non-resume"
                 "Failed resume validation check" rejectedSheet).1
        events := (save_rejected_to_sheets db o.now email.sender "non-resume"
                 "Failed resume validation check" rejectedSheet).2
        raised := none } := by
  unfold processEmail
  rw [hAtt, hSave]
  simp only [Bool.false_eq_true, if_false]
  rw [extract_llm_reject o.classify o.extract body (extract_text_from_pdf o.pdfRead path) hRej]
  simp only [hErr, Bool.false_eq_true, if_false, hSheet]

theorem processEmail_acceptPath (o : Oracles) (email : EmailData) (db : SheetDB)
    (path body : String) (data : Interns)
    (hAtt : email.attachments.isEmpty = false)
    (hSave : save_pdf o.fetchAtt [email] = Except.ok (path, body))
    (hErr : pyStartsWith (extract_text_from_pdf o.pdfRead path) "Error" = false)
    (hAcc : extract_llm o.classify o.extract body (extract_text_from_pdf o.pdfRead path) false
              = some data)
    (hSheet : o.sheetFails email.id candidatesSheet = false) :
    processEmail o email db =
      { db := (save_to_sheets db data candidatesSheet).1
        events := (save_to_sheets db data candidatesSheet).2
        raised := none } := by
  unfold processEmail
  rw [hAtt, hSave]
  simp only [Bool.false_eq_true, if_false]
  rw [hAcc]
  simp only [hErr, Bool.false_eq_true, if_false, hSheet]

/-- C1: the acceptance gate.  First, a candidate record comes out of
extract_llm only when the classification has is_resume true and confidence
not low.  Second, when the classification has is_resume false, or is_resume
true with low confidence, extract_llm returns none and its result does not
depend on the extraction chain at all, so the CandidateExtractor is never
invoked.  Third, such a message is routed by the pipeline to the rejection
sink only: every gspread effect it issues targets the rejected-applications
sheet, a rejection row is appended there, and that sheet is not the
acceptance sink (main.py lines 93-109, llm_func.py lines 264-281). -/
theorem extraction_gate_c1 :
    (∀ (classify : Classifier) (ext : Extractor) (eb pt : String) (r : Interns),
      extract_llm classify ext eb pt false = some r →
        (validate_resume classify pt eb).is_resume = true ∧
        (validate_resume classify pt eb).confidence ≠ Confidence.low) ∧
    (∀ (classify : Classifier) (ext1 ext2 : Extractor) (eb pt : String),
      ((validate_resume classify pt eb).is_resume = false ∨
       (validate_resume classify pt eb).confidence = Confidence.low) →
        extract_llm classify ext1 eb pt false = none ∧
        extract_llm classify ext1 eb pt false = extract_llm classify ext2 eb pt false) ∧
    (∀ (o : Oracles) (email : EmailData) (db : SheetDB) (path body : String),
      email.attachments.isEmpty = false →
      save_pdf o.fetchAtt [email] = Except.ok (path, body) →
      pyStartsWith (extract_text_from_pdf o.pdfRead path) "Error" = false →
      ((validate_resume o.classify (extract_text_from_pdf o.pdfRead path) body).is_resume
          = false ∨
       (validate_resume o.classify (extract_text_from_pdf o.pdfRead path) body).confidence
          = Confidence.low) →
      o.sheetFails email.id rejectedSheet = false →
        (processEmail o email db).raised = none ∧
        (∀ ev ∈ (processEmail o email db).events, eventSheet ev = rejectedSheet) ∧
        SheetEvent.append rejectedSheet
            [o.now, email.sender, "non-resume", "Failed resume validation check"]
          ∈ (processEmail o email db).events ∧
        rejectedSheet ≠ candidatesSheet) := by
  refine ⟨?_, ?_, ?_⟩
  · intro classify ext eb pt r h
    by_cases hr : (validate_resume classify pt eb).is_resume = false
    · rw [extract_llm_reject classify ext eb pt (Or.inl hr)] at h
      exact absurd h (by simp)
    · by_cases hc : (validate_resume classify pt eb).confidence = Confidence.low
      · rw [extract_llm_reject classify ext eb pt (Or.inr hc)] at h
        exact absurd h (by simp)
      · exact ⟨by simpa using hr, hc⟩
  · intro classify ext1 ext2 eb pt h
    rw [extract_llm_reject classify ext1 eb pt h, extract_llm_reject classify ext2 eb pt h]
    exact ⟨rfl, rfl⟩
  · intro o email db path body hAtt hSave hErr hRej hSheet
    rw [processEmail_rejectPath o email db path body hAtt hSave hErr hRej hSheet]
    refine ⟨rfl, ?_, ?_, by decide⟩
    · exact (save_rejected_events db o.now email.sender "non-resume"
        "Failed resume validation check" rejectedSheet).1
    · exact (save_rejected_events db o.now email.sender "non-resume"
        "Failed resume validation check" rejectedSheet).2

/-- Concrete classifier returning is_resume true with low confidence, used by
the C1 witness. -/
def lowConfClassifier : Classifier :=
  fun _ _ => Except.ok
    { is_resume := true
      confidence := Confidence.low
      document_type := "resume"
      reason := "sparse document" }

/-- Concrete extraction chain used by witnesses. -/
def okExtractor : Extractor :=
  fun _ rc => Except.ok
    { name := rc
      email := "N/A"
      phone := "N/A"
      skills := ["Python"]
      exp := "0 years"
      status := StatusTag.New
      summary := "s"
      question := "q" }

/-- A fixed concrete candidate record used by the sink witnesses. -/
def okExtractorRecord : Interns :=
  { name := "Alice Smith"
    email := "alice@example.com"
    phone := "+91-999-888-7777"
    skills := ["Python", "SQL", "Go"]
    exp := "2 years"
    status := StatusTag.New
    summary := "Two sentence summary."
    question := "Three questions." }

/-- Witness for C1: with a low-confidence is_resume classification,
extract_llm returns none and ignores the extraction chain. -/
theorem extraction_gate_c1_witness :
    ((validate_resume lowConfClassifier "some resume text" "eb").is_resume = false ∨
     (validate_resume lowConfClassifier "some resume text" "eb").confidence
       = Confidence.low) ∧
    extract_llm lowConfClassifier okExtractor "eb" "some resume text" false = none :=
  ⟨Or.inr (by decide),
   (extraction_gate_c1.2.1 lowConfClassifier okExtractor okExtractor "eb"
     "some resume text" (Or.inr (by decide))).1⟩

/-- C5 counterexample input: a classifier that labels the document an
invoice with high confidence and is_resume false. -/
def invoiceClassifier : Classifier :=
  fun _ _ => Except.ok
    { is_resume := false
      confidence := Confidence.high
      document_type := "invoice"
      reason := "totals and billing lines" }

/-- Oracles for the C5 counterexample run. -/
def invoiceOracles : Oracles :=
  { searchCall := Except.ok [{ id := "m9" }]
    fetchMsg := fun _ => Except.error "unused"
    fetchAtt := fun _ _ => Except.ok "bytes"
    pdfRead := fun _ => PdfResult.pages ["Invoice 12345 total 800"]
    classify := invoiceClassifier
    extract := okExtractor
    sheetFails := fun _ _ => false
    now := "2026-01-01 00:00:00" }

/-- Email for the C5 counterexample run. -/
def invoiceEmail : EmailData :=
  { id := "m9"
    sender := "bob@example.com"
    subject := "application"
    body := "please see attached"
    attachments := [{ filename := "doc.pdf", attachment_id := "a9" }] }

/-- Counterexample to C5 as stated: the classifier reports document_type
invoice, yet the rejection row the pipeline appends carries the hardcoded
string non-resume (main.py lines 103-107), which differs from the
label produced by the classifier. -/
theorem rejection_doc_type_c5_cex :
    (validate_resume invoiceOracles.classify
        (extract_text_from_pdf invoiceOracles.pdfRead (downloadDir ++ "/doc.pdf"))
        "please see attached").document_type = "invoice" ∧
    (processEmail invoiceOracles invoiceEmail []).db =
      [(rejectedSheet,
        [rejectedHeaders,
         ["2026-01-01 00:00:00", "bob@example.com", "non-resume",
          "Failed resume validation check"]])] ∧
    ("non-resume" : String) ≠ "invoice" := by
  refine ⟨rfl, rfl, by decide⟩

/-- C5 amended: for every message whose classification fails the acceptance
policy, the rejection row is the fully fixed
[timestamp, sender, "non-resume", "Failed resume validation check"]; the
document type written is the constant "non-resume", not the document_type
label the classifier produced. -/
theorem rejection_doc_type_fixed_c5 (o : Oracles) (email : EmailData) (db : SheetDB)
    (path body : String)
    (hAtt : email.attachments.isEmpty = false)
    (hSave : save_pdf o.fetchAtt [email] = Except.ok (path, body))
    (hErr : pyStartsWith (extract_text_from_pdf o.pdfRead path) "Error" = false)
    (hRej : (validate_resume o.classify (extract_text_from_pdf o.pdfRead path) body).is_resume
              = false ∨
            (validate_resume o.classify (extract_text_from_pdf o.pdfRead path) body).confidence
              = Confidence.low)
    (hSheet : o.sheetFails email.id rejectedSheet = false) :
    (processEmail o email db).events =
      (save_rejected_to_sheets db o.now email.sender "non-resume"
        "Failed resume validation check" rejectedSheet).2 ∧
    SheetEvent.append rejectedSheet
        [o.now, email.sender, "non-resume", "Failed resume validation check"]
      ∈ (processEmail o email db).events := by
  rw [processEmail_rejectPath o email db path body hAtt hSave hErr hRej hSheet]
  exact ⟨rfl, (save_rejected_events db o.now email.sender "non-resume"
    "Failed resume validation check" rejectedSheet).2⟩

/-- Witness for C5 amended, at the concrete invoice scenario. -/
theorem rejection_doc_type_fixed_c5_witness :
    invoiceEmail.attachments.isEmpty = false ∧
    (processEmail invoiceOracles invoiceEmail []).events =
      (save_rejected_to_sheets [] "2026-01-01 00:00:00" "bob@example.com" "non-resume"
        "Failed resume validation check" rejectedSheet).2 :=
  ⟨by decide,
   (rejection_doc_type_fixed_c5 invoiceOracles invoiceEmail []
     (downloadDir ++ "/doc.pdf") "please see attached" (by decide) rfl (by decide)
     (Or.inl (by decide)) rfl).1⟩

/-- First email of the C2 batch scenario: a valid resume. -/
def batchEmail1 : EmailData :=
  { id := "m1"
    sender := "alice@example.com"
    subject := "application"
    body := "body1"
    attachments := [{ filename := "r1.pdf", attachment_id := "a1" }] }

/-- Second email of the C2 batch scenario: a valid resume whose sink write
raises. -/
def batchEmail2 : EmailData :=
  { id := "m2"
    sender := "dave@example.com"
    subject := "application"
    body := "body2"
    attachments := [{ filename := "r2.pdf", attachment_id := "a2" }] }

/-- Third email of the C2 batch scenario: an invoice, hence rejected. -/
def batchEmail3 : EmailData :=
  { id := "m3"
    sender := "carol@example.com"
    subject := "application"
    body := "body3"
    attachments := [{ filename := "r3.pdf", attachment_id := "a3" }] }

/-- Oracles for the C2 batch scenario: every gspread call for message m2
raises, everything else behaves normally. -/
def batchOracles : Oracles :=
  { searchCall := Except.ok [{ id := "m1" }, { id := "m2" }, { id := "m3" }]
    fetchMsg := fun _ => Except.error "unused"
    fetchAtt := fun _ _ => Except.ok "bytes"
    pdfRead := fun p =>
      if p = downloadDir ++ "/r1.pdf" then PdfResult.pages ["Alice Smith Python developer"]
      else if p = downloadDir ++ "/r2.pdf" then PdfResult.pages ["Alice Brown Java developer"]
      else PdfResult.pages ["Invoice 12345 total 800"]
    classify := fun _ doc =>
      if pyStartsWith doc "Alice" then
        Except.ok
          { is_resume := true
            confidence := Confidence.high
            document_type := "resume"
            reason := "clear resume" }
      else
        Except.ok
          { is_resume := false
            confidence := Confidence.high
            document_type := "invoice"
            reason := "billing document" }
    extract := okExtractor
    sheetFails := fun mid _ => mid == "m2"
    now := "2026-10-12 00:00:00" }

/-- C2: per-message failure isolation.  In general every message of a batch
gets its own outcome, whatever the earlier messages did, so an exception in
one message never stops the loop.  Concretely, in the 3-message batch where
only message 2 raises (its gspread write fails), messages 1 and 3 still
complete with exactly one data row each in their respective sinks, message 2
contributes to neither sink, and the loop records exactly its one exception
(main.py lines 69-129). -/
theorem batch_isolation_c2 :
    (∀ (o : Oracles) (emails : List EmailData) (db : SheetDB),
      (runBatch o emails db).outcomes.length = emails.length) ∧
    (runBatch batchOracles [batchEmail1, batchEmail2, batchEmail3] []).db =
      [(candidatesSheet,
        [candidateHeaders,
         ["Alice Smith Python developer", "N/A", "N/A", "Python", "0 years", "New",
          "s", "q"]]),
       (rejectedSheet,
        [rejectedHeaders,
         ["2026-10-12 00:00:00", "carol@example.com", "non-resume",
          "Failed resume validation check"]])] ∧
    (runBatch batchOracles [batchEmail1, batchEmail2, batchEmail3] []).outcomes =
      [none, some sheetRaiseMsg, none] := by
  refine ⟨?_, rfl, rfl⟩
  intro o emails db
  induction emails generalizing db with
  | nil => rfl
  | cons e rest ih => simp [runBatch, ih]

/-- Oracles whose discovery call fails, for C3. -/
def discoveryFailOracles : Oracles :=
  { searchCall := Except.error "Gmail API unavailable"
    fetchMsg := fun _ => Except.error "unused"
    fetchAtt := fun _ _ => Except.error "unused"
    pdfRead := fun _ => PdfResult.notFound
    classify := fun _ _ => Except.error "unused"
    extract := fun _ _ => Except.error "unused"
    sheetFails := fun _ _ => false
    now := "t" }

/-- Counterexample to C3 as stated: when the discovery call fails,
search_gmail swallows the exception and returns the empty list
(gmail_func.py lines 58-60), so the pass completes normally with the
untouched state and an empty outcome list; nothing is raised to the retry
wrapper of the Scheduler, which therefore counts the attempt as a
success. -/
theorem discovery_failure_not_raised_c3_cex :
    search_gmail (Except.error "Gmail API unavailable") = [] ∧
    mainBody discoveryFailOracles [] = { db := [], events := [], outcomes := [] } :=
  ⟨rfl, rfl⟩

/-- C3 amended: one pipeline pass never raises; in particular a discovery
failure is caught inside search_gmail, the pass ends early with no sink
writes and no per-message outcomes, and it returns normally instead of being
reported to the Scheduler as a pass-level failure. -/
theorem discovery_failure_swallowed_c3 (o : Oracles) (db : SheetDB) (e : String)
    (h : o.searchCall = Except.error e) :
    mainBody o db = { db := db, events := [], outcomes := [] } := by
  unfold mainBody search_gmail
  rw [h]
  rfl

/-- Witness for C3 amended at the concrete failing discovery oracle. -/
theorem discovery_failure_swallowed_c3_witness :
    discoveryFailOracles.searchCall = Except.error "Gmail API unavailable" ∧
    mainBody discoveryFailOracles [] = { db := [], events := [], outcomes := [] } :=
  ⟨rfl, discovery_failure_swallowed_c3 discoveryFailOracles [] "Gmail API unavailable" rfl⟩

/-- Counterexample to C6 as stated: the header row the code writes when
creating the accepted-candidates store ends in the lowercase column
"questions" (llm_func.py line 389), not "Questions", and the
rejected-applications header uses "Document Type" and "Rejection Reason"
with spaces (llm_func.py line 427), not "DocumentType" and
"RejectionReason". -/
theorem header_strings_c6_cex :
    (save_to_sheets [] (okExtractorRecord) "intern_can").2 =
      [SheetEvent.create "intern_can",
       SheetEvent.share "intern_can" "mdhananjay776@gmail.com" "writer",
       SheetEvent.append "intern_can" candidateHeaders,
       SheetEvent.append "intern_can" (candidateRow okExtractorRecord)] ∧
    candidateHeaders ≠
      ["Name", "Email", "Phone", "Skills", "Experience", "Status", "Summary",
       "Questions"] ∧
    rejectedHeaders ≠ ["Timestamp", "Sender", "DocumentType", "RejectionReason"] :=
  ⟨rfl, by decide, by decide⟩

/-- C6 amended: on first use of an absent store each sink is created and
then receives exactly its fixed header row before the data row, after the
share grant: the accepted-candidates store with header
[Name, Email, Phone, Skills, Experience, Status, Summary, questions] and the
rejected-applications store with header
[Timestamp, Sender, Document Type, Rejection Reason]
(llm_func.py lines 379-396 and 422-429). -/
theorem sink_creation_header_c6 (db : SheetDB) (d : Interns)
    (q ts sender dt rs q2 : String) :
    (lookupSheet db q = none →
      (save_to_sheets db d q).2 =
        [SheetEvent.create q, SheetEvent.share q "mdhananjay776@gmail.com" "writer",
         SheetEvent.append q candidateHeaders, SheetEvent.append q (candidateRow d)]) ∧
    (lookupSheet db q2 = none →
      (save_rejected_to_sheets db ts sender dt rs q2).2 =
        [SheetEvent.create q2, SheetEvent.share q2 "mdhananjay776@gmail.com" "writer",
         SheetEvent.append q2 rejectedHeaders, SheetEvent.append q2 [ts, sender, dt, rs]]) := by
  constructor
  · intro h
    unfold save_to_sheets
    rw [h]
  · intro h
    unfold save_rejected_to_sheets
    rw [h]

/-- Witness for C6 amended on the initially empty account. -/
theorem sink_creation_header_c6_witness :
    lookupSheet [] "intern_can" = none ∧
    (save_to_sheets [] okExtractorRecord "intern_can").2 =
      [SheetEvent.create "intern_can",
       SheetEvent.share "intern_can" "mdhananjay776@gmail.com" "writer",
       SheetEvent.append "intern_can" candidateHeaders,
       SheetEvent.append "intern_can" (candidateRow okExtractorRecord)] :=
  ⟨rfl, (sink_creation_header_c6 [] okExtractorRecord "intern_can" "t" "s" "d" "r"
    "rejected_applications").1 rfl⟩

/-- C7: calling save_to_sheets twice against an initially absent store leaves
exactly one header row followed by the two data rows in call order, and the
second call appends only its data row, never the header again
(llm_func.py lines 369-396). -/
theorem sink_idempotence_c7 (db : SheetDB) (q : String) (d1 d2 : Interns)
    (h : lookupSheet db q = none) :
    lookupSheet (save_to_sheets (save_to_sheets db d1 q).1 d2 q).1 q =
      some [candidateHeaders, candidateRow d1, candidateRow d2] ∧
    (save_to_sheets (save_to_sheets db d1 q).1 d2 q).2 =
      [SheetEvent.append q (candidateRow d2)] := by
  have h1 := save_to_sheets_rows_absent db d1 q h
  have h2 := save_to_sheets_present (save_to_sheets db d1 q).1 d2 q
    [candidateHeaders, candidateRow d1] h1
  exact ⟨by simpa using h2.1, h2.2⟩

/-- Witness for C7 on the initially empty account. -/
theorem sink_idempotence_c7_witness :
    lookupSheet [] "intern_can" = none ∧
    lookupSheet (save_to_sheets (save_to_sheets [] okExtractorRecord "intern_can").1
        okExtractorRecord "intern_can").1 "intern_can" =
      some [candidateHeaders, candidateRow okExtractorRecord,
        candidateRow okExtractorRecord] :=
  ⟨rfl, (sink_idempotence_c7 [] "intern_can" okExtractorRecord okExtractorRecord rfl).1⟩

/-- C10: the failure channel of extract_text_from_pdf and its success channel
share the string value space, and main distinguishes them only by the prefix
"Error" (main.py line 88).  Whenever the reader succeeds but the normalized
page text itself begins with "Error", the pipeline treats the message as an
extraction failure: it is skipped, the state is unchanged, no row reaches
either sink, and no exception is recorded. -/
theorem error_marker_collision_c10 (o : Oracles) (email : EmailData) (db : SheetDB)
    (path body : String) (ps : List String)
    (hAtt : email.attachments.isEmpty = false)
    (hSave : save_pdf o.fetchAtt [email] = Except.ok (path, body))
    (hRead : o.pdfRead path = PdfResult.pages ps)
    (hColl : pyStartsWith
        (normalizeWs (ps.foldl (fun acc page => acc ++ page ++ "\n") "")) "Error" = true) :
    processEmail o email db = { db := db, events := [], raised := none } := by
  unfold processEmail
  rw [hAtt, hSave]
  simp only [Bool.false_eq_true, if_false]
  have htxt : extract_text_from_pdf o.pdfRead path =
      normalizeWs (ps.foldl (fun acc page => acc ++ page ++ "\n") "") := by
    simp [extract_text_from_pdf, hRead]
  rw [htxt, hColl]
  simp

/-- Oracles for the C10 witness: a perfectly readable PDF whose text happens
to begin with the word Error. -/
def errorTextOracles : Oracles :=
  { searchCall := Except.ok [{ id := "m7" }]
    fetchMsg := fun _ => Except.error "unused"
    fetchAtt := fun _ _ => Except.ok "bytes"
    pdfRead := fun _ => PdfResult.pages ["Error handling specialist resume Python"]
    classify := fun _ _ =>
      Except.ok
        { is_resume := true
          confidence := Confidence.high
          document_type := "resume"
          reason := "clear resume" }
    extract := okExtractor
    sheetFails := fun _ _ => false
    now := "t" }

/-- Email for the C10 witness. -/
def errorTextEmail : EmailData :=
  { id := "m7"
    sender := "eve@example.com"
    subject := "application"
    body := "resume attached"
    attachments := [{ filename := "cv.pdf", attachment_id := "a7" }] }

/-- Witness for C10: a successful extraction whose text starts with Error is
dropped without touching any sink. -/
theorem error_marker_collision_c10_witness :
    errorTextOracles.pdfRead (downloadDir ++ "/cv.pdf") =
      PdfResult.pages ["Error handling specialist resume Python"] ∧
    processEmail errorTextOracles errorTextEmail [] =
      { db := [], events := [], raised := none } :=
  ⟨rfl, error_marker_collision_c10 errorTextOracles errorTextEmail []
    (downloadDir ++ "/cv.pdf") "resume attached"
    ["Error handling specialist resume Python"] (by decide) rfl rfl (by decide)⟩

